import Mathlib

/-!
Shallow embedding of src/talkbot_gui.py (TalkBot GUI, a PyQt6 chat/vision
client).  Pure fragments of the Python code are translated to Lean
functions; each GUI handler is modelled as a function from its inputs
(edit-field texts, persisted settings, the HTTP response it observes) to
the list of observable effects it performs (log appends, speech-synthesis
invocations, HTTP requests).  The effect order follows the source line by
line.
-/

namespace TalkBot

/-- Python str.strip(): remove leading and trailing whitespace. -/
def pyStrip (s : String) : String :=
  (((s.toList.dropWhile Char.isWhitespace).reverse.dropWhile
      Char.isWhitespace).reverse).asString

/-- Python s.startswith(pre). -/
def pyStartsWith (pre s : String) : Bool :=
  pre.toList.isPrefixOf s.toList

/-- Python str.lower() (ASCII as used by the program). -/
def pyLower (s : String) : String :=
  (s.toList.map Char.toLower).asString

/-- Python truthiness fallback on strings: the expression a or b. -/
def pyOr (a b : String) : String :=
  if a = "" then b else a

/-- Python s.split(sep, 1)[1] for sep a colon: everything after the
first colon of s (empty when s has no colon; in the source this is only
evaluated on strings that contain a colon). -/
def afterFirstColon (s : String) : String :=
  ((s.toList.dropWhile (fun c => !(c == ':'))).drop 1).asString

/-- Python dict d.get(key, ""): the value at key, else the empty
string (parsed JSON dicts have unique keys, so plain lookup suffices). -/
def dictGetText (d : List (String × String)) : String :=
  (d.lookup "text").getD ""

/-- JSON values, as returned by json.loads / consumed by json.dumps. -/
inductive Json where
  | null
  | bool (b : Bool)
  | num (n : Int)
  | str (s : String)
  | arr (elems : List Json)
  | obj (fields : List (String × Json))

/-- The Settings dataclass as annotated: three string fields, each
defaulting to the empty string (src/talkbot_gui.py lines 53-57). -/
structure Settings where
  host : String := ""
  api_key : String := ""
  voice_name : String := ""
deriving DecidableEq

/-- The runtime result of the Settings constructor.  Python dataclasses
do not enforce the field annotations, so the constructed object can hold
arbitrary JSON values in its fields; each field defaults to the empty
string when its keyword argument is missing. -/
structure RawSettings where
  host : Json := .str ""
  api_key : Json := .str ""
  voice_name : Json := .str ""

/-- Settings.save: json.dumps(asdict(self)) — the JSON object written to
settings.json (src/talkbot_gui.py lines 68-69). -/
def Settings.save (s : Settings) : Json :=
  .obj [("host", .str s.host), ("api_key", .str s.api_key),
        ("voice_name", .str s.voice_name)]

/-- State of the settings file: absent, present but not valid JSON
(json.loads raises), or present with a JSON value as content. -/
inductive FileContent where
  | absent
  | invalid
  | json (j : Json)

/-- Lookup in a dict built from possibly duplicated JSON object keys:
json.loads keeps the last occurrence of a repeated key. -/
def lastLookup (k : String) (kvs : List (String × Json)) : Option Json :=
  kvs.reverse.lookup k

/-- Python cls(**d) for the Settings dataclass on a dict d: fails
(TypeError) when d holds a key other than the three field names,
otherwise builds the object from the given values, defaulting each
missing field to the empty string.  Field values are NOT type checked. -/
def settingsKwargs (kvs : List (String × Json)) : Option RawSettings :=
  if kvs.all (fun kv =>
      kv.1 == "host" || kv.1 == "api_key" || kv.1 == "voice_name") then
    some { host := (lastLookup "host" kvs).getD (.str "")
           api_key := (lastLookup "api_key" kvs).getD (.str "")
           voice_name := (lastLookup "voice_name" kvs).getD (.str "") }
  else
    none

/-- Settings.load (src/talkbot_gui.py lines 59-66): when the file exists,
try cls(**json.loads(text)); any exception (unreadable JSON, non-dict
value, unexpected key) falls through to the all-defaults object. -/
def Settings.load : FileContent → RawSettings
  | .absent => {}
  | .invalid => {}
  | .json (.obj kvs) => (settingsKwargs kvs).getD {}
  | .json _ => {}

/-- RawSettings view of a well-typed Settings record. -/
def RawSettings.ofSettings (s : Settings) : RawSettings :=
  { host := .str s.host, api_key := .str s.api_key
    voice_name := .str s.voice_name }

/-- The body of the POST /chat request built by _post_chat
(src/talkbot_gui.py lines 332-343). -/
structure ChatRequest where
  url : String
  key : String
  text : String
  voice_id : String
deriving DecidableEq

/-- The form fields of the multipart POST /vision request built by
_post_vision (src/talkbot_gui.py lines 345-366); the JPEG image bytes are
not modelled. -/
structure VisionRequest where
  url : String
  key : String
  prompt : String
  mode : String
  target : String
  voice_id : String
deriving DecidableEq

/-- Observable effects of a handler, in program order: a _log call (the
message passed, before the timestamp prefix the log pane adds), a speech
synthesis invocation (_speak_async spawning a TTS worker for a
non-empty text), and the three HTTP requests. -/
inductive Effect where
  | log (msg : String)
  | speakAsync (text : String)
  | getHealth (url : String)
  | postChat (req : ChatRequest)
  | postVision (req : VisionRequest)
deriving DecidableEq

/-- Whether an effect is a speech-synthesis invocation. -/
def Effect.isSpeak : Effect → Bool
  | .speakAsync _ => true
  | _ => false

/-- Whether an effect is a log append. -/
def Effect.isLog : Effect → Bool
  | .log _ => true
  | _ => false

/-- Whether an effect is an HTTP request. -/
def Effect.isHttp : Effect → Bool
  | .getHealth _ => true
  | .postChat _ => true
  | .postVision _ => true
  | _ => false

/-- The effects of _speak_async (src/talkbot_gui.py lines 275-301): for
an empty text it returns without doing anything; otherwise it records
the text and spawns one TTS worker for it (pyttsx3 assumed available). -/
def speakAsyncEff (text : String) : List Effect :=
  if text = "" then [] else [.speakAsync text]

/-- _hk (src/talkbot_gui.py lines 325-330): resolve host and key from
the edit fields, falling back to the saved settings, and raise
RuntimeError("Host or API key missing.") when either resolves empty. -/
def hk (hostEdit keyEdit : String) (st : Settings) :
    Except String (String × String) :=
  let host := pyOr (pyStrip hostEdit) (pyStrip st.host)
  let key := pyOr (pyStrip keyEdit) (pyStrip st.api_key)
  if host = "" ∨ key = "" then .error "Host or API key missing."
  else .ok (host, key)

/-- The message str(e) of the requests.exceptions.HTTPError raised by
Response.raise_for_status for a 4xx/5xx status (modelled after the
requests library, which is outside this repository). -/
def httpErrorStr (status : Nat) (reason url : String) : String :=
  toString status ++
    (if status < 500 then " Client Error: " else " Server Error: ") ++
    reason ++ " for url: " ++ url

/-- Outcome of an HTTP POST observed by a handler: a parsed JSON body
(none models JSON null; the dict is restricted to its string-valued
fields, which is all the handlers read), an HTTPError from
raise_for_status carrying status/reason/url and the response body text,
a connection error, or any other exception rendered as str(e). -/
inductive PostResult where
  | ok (res : Option (List (String × String)))
  | httpError (status : Nat) (reason url body : String)
  | connError (msg : String)
  | otherError (msg : String)

/-- Outcome of the GET /health request. -/
inductive HealthResult where
  | ok (status : Nat) (body : String)
  | err (msg : String)

/-- _test_health (src/talkbot_gui.py lines 229-239). -/
def testHealth (hostEdit keyEdit : String) (st : Settings)
    (resp : HealthResult) : List Effect :=
  match hk hostEdit keyEdit st with
  | .error e => [.log ("Health check error: " ++ e)]
  | .ok (host, _) =>
    .getHealth (host ++ "/health") ::
    match resp with
    | .ok status body => [.log ("Health: " ++ toString status ++ " " ++ body)]
    | .err e => [.log ("Health check error: " ++ e)]

/-- _send_chat (src/talkbot_gui.py lines 370-391), with the POST /chat
outcome supplied as an argument. -/
def sendChat (hostEdit keyEdit : String) (st : Settings)
    (chatInput : String) (resp : PostResult) : List Effect :=
  match hk hostEdit keyEdit st with
  | .error e => [.log ("Chat error: " ++ e)]
  | .ok (host, key) =>
    let text := pyStrip chatInput
    if text = "" then []
    else
      .log ("You: " ++ text) ::
      .postChat ⟨host ++ "/chat", key, text,
                 pyOr st.voice_name "en_US-amy-medium"⟩ ::
      match resp with
      | .ok res =>
        let msg := pyStrip (dictGetText (res.getD []))
        if msg = "" then [.log "Assistant: (empty)"]
        else .log ("Assistant: " ++ msg) :: speakAsyncEff msg
      | .httpError status reason url body =>
        [.log ("Chat error: " ++ httpErrorStr status reason url ++
               " | Body: " ++ body)]
      | .connError e => [.log ("Chat error: " ++ e)]
      | .otherError e => [.log ("Chat error: " ++ e)]

/-- The default prompt chosen by _vision_with_frame for an empty prompt
(src/talkbot_gui.py lines 419-424): a dict lookup on the lower-cased
mode (empty mode defaulting to scene), with the scene text as the
dict.get fallback. -/
def defaultPrompt (mode target : String) : String :=
  let m := pyLower (pyOr mode "scene")
  if m = "scene" then "Describe the scene briefly for navigation."
  else if m = "emotion" then
    "Describe the likely facial expression and overall emotion."
  else if m = "navigate" then
    "How to navigate toward " ++ pyOr target "the target" ++ " in the scene?"
  else if m = "objects" then
    "List the main objects present with short positions."
  else "Describe the scene briefly for navigation."

/-- The form fields sent by _post_vision (src/talkbot_gui.py
lines 352-357). -/
def visionRequest (host key : String) (st : Settings)
    (prompt mode target : String) : VisionRequest :=
  { url := host ++ "/vision", key := key
    prompt := pyOr prompt ""
    mode := pyLower (pyOr mode "scene")
    target := pyOr target ""
    voice_id := pyOr st.voice_name "en_US-amy-medium" }

/-- _vision_with_frame (src/talkbot_gui.py lines 411-439), with the
POST /vision outcome supplied as an argument; the frame is not modelled
(its JPEG encoding failing surfaces as an otherError). -/
def visionWithFrame (hostEdit keyEdit : String) (st : Settings)
    (mode target prompt : String) (resp : PostResult) : List Effect :=
  match hk hostEdit keyEdit st with
  | .error e => [.log ("Vision error: " ++ e)]
  | .ok (host, key) =>
    let user_prompt := pyOr prompt (defaultPrompt mode target)
    .postVision (visionRequest host key st user_prompt mode target) ::
    match resp with
    | .ok res =>
      let text := pyStrip (dictGetText (res.getD []))
      if text = "" then [.log "Vision: (empty response)."]
      else .log ("Vision:\n" ++ text) :: speakAsyncEff text
    | .httpError status reason url body =>
      [.log ("Vision error: " ++ httpErrorStr status reason url ++
             " | Body: " ++ body)]
    | .connError e => [.log ("Vision error: connection failed (" ++ e ++ ")")]
    | .otherError e => [.log ("Vision error: " ++ e)]

/-- The first element of a list satisfying p when the list is scanned in
reverse, as a Python loop for x in reversed(xs) with an early return
does. -/
def findRev? (p : α → Bool) : List α → Option α
  | [] => none
  | a :: as =>
    match findRev? p as with
    | some b => some b
    | none => if p a then some a else none

/-- The stripped content after the first colon of an already stripped
log line, content = s.split(":", 1)[1].strip() in _speak_last_text. -/
def colonContent (s : String) : String :=
  pyStrip (afterFirstColon s)

/-- The loop-body condition of the first scan in _speak_last_text
(src/talkbot_gui.py lines 309-315): the stripped line starts with
one of the two reply prefixes and has non-empty content after the first
colon (an empty content makes the loop continue, so it is part of the
selection predicate). -/
def speakableReply (line : String) : Bool :=
  let s := pyStrip line
  (pyStartsWith "Assistant:" s || pyStartsWith "Vision:" s) &&
    !(colonContent s == "")

/-- The condition of the second, fallback scan in _speak_last_text:
any line with non-empty stripped text. -/
def nonBlankLine (line : String) : Bool :=
  !(pyStrip line == "")

/-- _speak_last_text (src/talkbot_gui.py lines 303-321): speak the last
recorded utterance when there is one; otherwise scan the log pane lines
in reverse for the last Assistant:/Vision: line with content, then for
the last non-blank line, and finally log that there is nothing to
speak. -/
def speakLastText (lastSpoken : String) (lines : List String) :
    List Effect :=
  if lastSpoken = "" then
    match findRev? speakableReply lines with
    | some line => speakAsyncEff (colonContent (pyStrip line))
    | none =>
      match findRev? nonBlankLine lines with
      | some line => speakAsyncEff (pyStrip line)
      | none => [.log "Nothing to speak yet."]
  else speakAsyncEff lastSpoken

/-!
Interleaving model of the TTS workers.  Each _speak_async call spawns a
thread whose body is: acquire self._tts_lock, then pyttsx3.init(), the
voice selection and eng.say(text), then eng.runAndWait(), then
eng.stop(), then release the lock (leaving the with-block).  Threads
are named by naturals; a scheduler picks any enabled thread at each
step.  The lock admits an acquire only when free.
-/

/-- Program counter of one TTS worker thread (the body of run in
_speak_async, src/talkbot_gui.py lines 280-296). -/
inductive TtsPc where
  | start      -- before entering the with-block
  | acquired   -- lock taken, before pyttsx3.init()
  | inited     -- after init and voice selection, before eng.say
  | said       -- after eng.say, before eng.runAndWait
  | ranWaited  -- after eng.runAndWait, before eng.stop
  | stopped    -- after eng.stop, before leaving the with-block
  | finished   -- with-block exited, lock released
deriving DecidableEq

/-- A worker at these counters is inside the with self._tts_lock block,
i.e. holds the shared TTS lock for the whole init/say/runAndWait/stop
sequence. -/
def TtsPc.holdsLock : TtsPc → Bool
  | .start => false
  | .finished => false
  | _ => true

/-- Global state of the TTS workers: who owns self._tts_lock (none when
free) and each thread's counter. -/
structure TtsSys where
  lock : Option Nat
  pcs : Nat → TtsPc

/-- All workers spawned, none yet scheduled, lock free. -/
def TtsSys.init : TtsSys :=
  { lock := none, pcs := fun _ => .start }

/-- One scheduler step of the TTS workers.  Entering the with-block
requires the lock to be free and takes it; the internal engine calls
keep it; leaving the with-block releases it. -/
inductive TtsStep : TtsSys → TtsSys → Prop where
  | acquire (s : TtsSys) (i : Nat) :
      s.pcs i = .start → s.lock = none →
      TtsStep s ⟨some i, Function.update s.pcs i .acquired⟩
  | engInit (s : TtsSys) (i : Nat) :
      s.pcs i = .acquired →
      TtsStep s ⟨s.lock, Function.update s.pcs i .inited⟩
  | engSay (s : TtsSys) (i : Nat) :
      s.pcs i = .inited →
      TtsStep s ⟨s.lock, Function.update s.pcs i .said⟩
  | engRunAndWait (s : TtsSys) (i : Nat) :
      s.pcs i = .said →
      TtsStep s ⟨s.lock, Function.update s.pcs i .ranWaited⟩
  | engStop (s : TtsSys) (i : Nat) :
      s.pcs i = .ranWaited →
      TtsStep s ⟨s.lock, Function.update s.pcs i .stopped⟩
  | release (s : TtsSys) (i : Nat) :
      s.pcs i = .stopped →
      TtsStep s ⟨none, Function.update s.pcs i .finished⟩

/-- States reachable from the initial state by scheduler steps. -/
inductive TtsReachable : TtsSys → Prop where
  | init : TtsReachable TtsSys.init
  | step {s t : TtsSys} : TtsReachable s → TtsStep s t → TtsReachable t

/-- The lock-ownership invariant: every thread inside the with-block is
the recorded owner of the lock. -/
def TtsInv (s : TtsSys) : Prop :=
  ∀ i : Nat, (s.pcs i).holdsLock = true → s.lock = some i

/-- A reachable demonstration state: thread 0 has just acquired the
TTS lock. -/
def ttsAcquiredState : TtsSys :=
  ⟨some 0, Function.update TtsSys.init.pcs 0 .acquired⟩

/-- Whether a JSON value is a string. -/
def Json.isStr : Json → Bool
  | .str _ => true
  | _ => false

/-- Modelled from the spec (section 6 and the C4 claim wording, for
comparison with the code): the settings file is present and parses as a
JSON object matching the settings record, i.e. every field is one of
host/api_key/voice_name and every value is a JSON string. -/
def matchesSettingsRecord : FileContent → Bool
  | .json (.obj kvs) =>
    kvs.all (fun kv =>
      (kv.1 == "host" || kv.1 == "api_key" || kv.1 == "voice_name") &&
        kv.2.isStr)
  | _ => false

/-- The file states in which Settings.load actually falls back to the
all-defaults record: absent file, unreadable JSON, a non-object JSON
value, or an object with a key the dataclass constructor rejects.
(Unlike the spec reading, field values are not inspected.) -/
def loadRejected : FileContent → Bool
  | .absent => true
  | .invalid => true
  | .json (.obj kvs) =>
    !(kvs.all (fun kv =>
        kv.1 == "host" || kv.1 == "api_key" || kv.1 == "voice_name"))
  | .json _ => true

/-!  Helper lemmas.  -/

theorem findRev?_eq_none {p : α → Bool} {l : List α}
    (h : findRev? p l = none) : ∀ b ∈ l, p b = false := by
  induction l with
  | nil => intro b hb; cases hb
  | cons x xs ih =>
    intro b hb
    rw [findRev?] at h
    cases hfa : findRev? p xs with
    | some c => rw [hfa] at h; cases h
    | none =>
      rw [hfa] at h
      by_cases hpx : p x = true
      · rw [if_pos hpx] at h; cases h
      · rcases List.mem_cons.mp hb with rfl | hb'
        · simpa using hpx
        · exact ih hfa b hb'

theorem findRev?_ne_none {p : α → Bool} {l : List α} {a : α}
    (hmem : a ∈ l) (hpa : p a = true) : findRev? p l ≠ none := by
  intro h
  have := findRev?_eq_none h a hmem
  rw [hpa] at this
  cases this

theorem findRev?_some_split {p : α → Bool} {l : List α} {a : α}
    (h : findRev? p l = some a) :
    ∃ pre post, l = pre ++ a :: post ∧ p a = true ∧
      ∀ b ∈ post, p b = false := by
  induction l with
  | nil => cases h
  | cons x xs ih =>
    rw [findRev?] at h
    cases hfa : findRev? p xs with
    | some c =>
      rw [hfa] at h
      cases h
      obtain ⟨pre, post, hsplit, hpa, hpost⟩ := ih hfa
      exact ⟨x :: pre, post, by rw [hsplit]; rfl, hpa, hpost⟩
    | none =>
      rw [hfa] at h
      by_cases hpx : p x = true
      · rw [if_pos hpx] at h
        cases h
        exact ⟨[], xs, rfl, hpx, findRev?_eq_none hfa⟩
      · rw [if_neg hpx] at h; cases h

theorem ttsInv_init : TtsInv TtsSys.init := by
  intro i h
  simp [TtsSys.init, TtsPc.holdsLock] at h

theorem ttsInv_step {s t : TtsSys} (h : TtsInv s) (hst : TtsStep s t) :
    TtsInv t := by
  cases hst with
  | acquire i hpc hlock =>
    intro j hj
    have hj' : (Function.update s.pcs i TtsPc.acquired j).holdsLock = true := hj
    by_cases hij : j = i
    · subst hij; rfl
    · rw [Function.update_noteq hij _ _] at hj'
      rw [h j hj'] at hlock
      cases hlock
  | engInit i hpc =>
    intro j hj
    have hj' : (Function.update s.pcs i TtsPc.inited j).holdsLock = true := hj
    by_cases hij : j = i
    · subst hij; exact h j (by rw [hpc]; rfl)
    · rw [Function.update_noteq hij _ _] at hj'
      exact h j hj'
  | engSay i hpc =>
    intro j hj
    have hj' : (Function.update s.pcs i TtsPc.said j).holdsLock = true := hj
    by_cases hij : j = i
    · subst hij; exact h j (by rw [hpc]; rfl)
    · rw [Function.update_noteq hij _ _] at hj'
      exact h j hj'
  | engRunAndWait i hpc =>
    intro j hj
    have hj' : (Function.update s.pcs i TtsPc.ranWaited j).holdsLock = true := hj
    by_cases hij : j = i
    · subst hij; exact h j (by rw [hpc]; rfl)
    · rw [Function.update_noteq hij _ _] at hj'
      exact h j hj'
  | engStop i hpc =>
    intro j hj
    have hj' : (Function.update s.pcs i TtsPc.stopped j).holdsLock = true := hj
    by_cases hij : j = i
    · subst hij; exact h j (by rw [hpc]; rfl)
    · rw [Function.update_noteq hij _ _] at hj'
      exact h j hj'
  | release i hpc =>
    intro j hj
    have hj' : (Function.update s.pcs i TtsPc.finished j).holdsLock = true := hj
    by_cases hij : j = i
    · subst hij
      rw [Function.update_same] at hj'
      simp [TtsPc.holdsLock] at hj'
    · rw [Function.update_noteq hij _ _] at hj'
      have hsj := h j hj'
      have hsi := h i (by rw [hpc]; rfl)
      rw [hsj] at hsi
      exact absurd (Option.some.inj hsi) hij

theorem ttsInv_reachable {s : TtsSys} (h : TtsReachable s) : TtsInv s := by
  induction h with
  | init => exact ttsInv_init
  | step _ hst ih => exact ttsInv_step ih hst

theorem pyOr_right_empty (a : String) : pyOr a "" = a := by
  by_cases h : a = "" <;> simp [pyOr, h]

theorem mem_of_head? {α : Type} {l : List α} {a : α}
    (h : l.head? = some a) : a ∈ l := by
  cases l with
  | nil => cases h
  | cons x xs =>
    injection h with h
    rw [← h]
    exact List.mem_cons_self _ _

theorem visionWithFrame_head {hostEdit keyEdit : String} {st : Settings}
    {host key : String} (mode target prompt : String) (resp : PostResult)
    (hhk : hk hostEdit keyEdit st = .ok (host, key)) :
    (visionWithFrame hostEdit keyEdit st mode target prompt resp).head? =
      some (.postVision (visionRequest host key st
        (pyOr prompt (defaultPrompt mode target)) mode target)) := by
  cases resp <;> simp [visionWithFrame, hhk]

/-!  Claim theorems.  -/

/-- C8: with no recorded utterance and an empty log pane,
_speak_last_text appends the log message "Nothing to speak yet." and
invokes no speech synthesis. -/
theorem speakLast_nothing_to_speak :
    speakLastText "" [] = [Effect.log "Nothing to speak yet."] ∧
    (speakLastText "" []).filter Effect.isSpeak = [] := by
  exact ⟨rfl, rfl⟩

/-- C5: Settings.save followed by Settings.load yields the same host,
api_key and voice_name values, for every settings record with string
fields. -/
theorem settings_save_load_roundtrip (s : Settings) :
    Settings.load (.json (Settings.save s)) = RawSettings.ofSettings s := by
  rfl

/-- C4 counterexample: the file content given by the JSON object with
the single field host set to the number 3 is not parseable as JSON
matching the settings record (host is not a string), yet Settings.load
does not return the all-empty-strings default: the dataclass
constructor accepts the known keyword and stores the number. -/
theorem settings_load_claim_cex :
    matchesSettingsRecord (.json (.obj [("host", .num 3)])) = false ∧
    Settings.load (.json (.obj [("host", .num 3)])) ≠ ({} : RawSettings) ∧
    (Settings.load (.json (.obj [("host", .num 3)]))).host = Json.num 3 := by
  refine ⟨rfl, ?_, rfl⟩
  intro h
  have h2 : Json.num 3 = Json.str "" := congrArg RawSettings.host h
  cases h2

/-- C4 amended: Settings.load returns the all-defaults record (all
three fields the empty string) exactly on the file states the
constructor path rejects: absent file, unreadable JSON, non-object JSON
value, or an object with an unexpected key.  An object with the known
keys is accepted without checking that its values are strings.  The
function is total (every exception is caught), so it never raises. -/
theorem settings_load_defaults (f : FileContent)
    (h : loadRejected f = true) :
    Settings.load f = ({} : RawSettings) := by
  cases f with
  | absent => rfl
  | invalid => rfl
  | json j =>
    cases j with
    | null => rfl
    | bool b => rfl
    | num n => rfl
    | str s => rfl
    | arr es => rfl
    | obj kvs =>
      have hall : (kvs.all fun kv =>
          kv.1 == "host" || kv.1 == "api_key" || kv.1 == "voice_name")
            = false := by
        simpa [loadRejected] using h
      simp [Settings.load, settingsKwargs, hall]

/-- Witness for the amended C4 theorem at the unreadable-JSON file
state. -/
theorem settings_load_defaults_witness :
    loadRejected .invalid = true ∧
    Settings.load .invalid = ({} : RawSettings) :=
  ⟨rfl, settings_load_defaults .invalid rfl⟩

/-- C9: in every reachable state of the TTS worker interleaving model,
at most one worker is inside the with self._tts_lock block — the whole
init/say/runAndWait/stop sequence — so concurrently issued speak
requests execute their utterances serially in some order. -/
theorem tts_mutual_exclusion (s : TtsSys) (h : TtsReachable s)
    (i j : Nat) (hi : (s.pcs i).holdsLock = true)
    (hj : (s.pcs j).holdsLock = true) : i = j := by
  have hinv := ttsInv_reachable h
  have hli := hinv i hi
  have hlj := hinv j hj
  rw [hli] at hlj
  exact Option.some.inj hlj

/-- Witness for C9 at the state where thread 0 has just acquired the
lock. -/
theorem tts_mutual_exclusion_witness : (0 : Nat) = 0 :=
  tts_mutual_exclusion ttsAcquiredState
    (TtsReachable.step TtsReachable.init
      (TtsStep.acquire TtsSys.init 0 rfl rfl))
    0 0 rfl rfl

/-- C1: when the recorded utterance is empty and some log pane line is
a stripped Assistant:/Vision: line with non-empty content after the
colon, _speak_last_text selects the last such line — no later line
qualifies — and submits its stripped content after the first colon
(i.e. after the prefix) to speech synthesis. -/
theorem speakLast_scans_last_reply (lastSpoken : String)
    (lines : List String) (h0 : lastSpoken = "")
    (h1 : ∃ l ∈ lines, speakableReply l = true) :
    ∃ pre line post, lines = pre ++ line :: post ∧
      speakableReply line = true ∧
      (∀ m ∈ post, speakableReply m = false) ∧
      speakLastText lastSpoken lines =
        [Effect.speakAsync (colonContent (pyStrip line))] := by
  subst h0
  obtain ⟨l0, hmem, hp0⟩ := h1
  cases hfind : findRev? speakableReply lines with
  | none => exact absurd hfind (findRev?_ne_none hmem hp0)
  | some line =>
    obtain ⟨pre, post, hsplit, hpline, hpost⟩ := findRev?_some_split hfind
    refine ⟨pre, line, post, hsplit, hpline, hpost, ?_⟩
    have hcontent : ¬ colonContent (pyStrip line) = "" := by
      have h2 := hpline
      simp only [speakableReply, Bool.and_eq_true, Bool.not_eq_true',
        beq_eq_false_iff_ne, ne_eq] at h2
      exact h2.2
    simp [speakLastText, hfind, speakAsyncEff, hcontent]

/-- Witness for C1 on a one-line log pane. -/
theorem speakLast_scans_last_reply_witness :
    ∃ pre line post, ["Assistant: hi"] = pre ++ line :: post ∧
      speakableReply line = true ∧
      (∀ m ∈ post, speakableReply m = false) ∧
      speakLastText "" ["Assistant: hi"] =
        [Effect.speakAsync (colonContent (pyStrip line))] :=
  speakLast_scans_last_reply "" ["Assistant: hi"] rfl
    ⟨"Assistant: hi", by decide, by decide⟩

/-- C2: a chat send with resolvable host/key and non-empty (stripped)
input whose POST /chat succeeds with a JSON body whose text field is
"hello" appends the log line "Assistant: hello" and invokes speech
synthesis exactly once, with text "hello". -/
theorem sendChat_hello (hostEdit keyEdit : String) (st : Settings)
    (input : String) (res : List (String × String))
    (hostKey : String × String)
    (hhk : hk hostEdit keyEdit st = .ok hostKey)
    (hinput : ¬ pyStrip input = "")
    (htext : res.lookup "text" = some "hello") :
    Effect.log "Assistant: hello" ∈
      sendChat hostEdit keyEdit st input (.ok (some res)) ∧
    (sendChat hostEdit keyEdit st input (.ok (some res))).filter
      Effect.isSpeak = [Effect.speakAsync "hello"] := by
  obtain ⟨host, key⟩ := hostKey
  have hmsg : pyStrip (dictGetText res) = "hello" := by
    rw [dictGetText, htext]
    rfl
  constructor <;>
    simp [sendChat, hhk, hinput, hmsg, speakAsyncEff, Effect.isSpeak,
      List.filter]

/-- Witness for C2 at concrete field texts and response. -/
theorem sendChat_hello_witness :
    Effect.log "Assistant: hello" ∈
      sendChat "h" "k" {} "hi" (.ok (some [("text", "hello")])) ∧
    (sendChat "h" "k" {} "hi" (.ok (some [("text", "hello")]))).filter
      Effect.isSpeak = [Effect.speakAsync "hello"] :=
  sendChat_hello "h" "k" {} "hi" [("text", "hello")] ("h", "k") rfl
    (by decide) rfl

/-- C3: a chat send whose POST /chat succeeds with a JSON body whose
text field is the empty string appends the log line
"Assistant: (empty)" and invokes no speech synthesis. -/
theorem sendChat_empty_reply (hostEdit keyEdit : String) (st : Settings)
    (input : String) (res : List (String × String))
    (hostKey : String × String)
    (hhk : hk hostEdit keyEdit st = .ok hostKey)
    (hinput : ¬ pyStrip input = "")
    (htext : res.lookup "text" = some "") :
    Effect.log "Assistant: (empty)" ∈
      sendChat hostEdit keyEdit st input (.ok (some res)) ∧
    (sendChat hostEdit keyEdit st input (.ok (some res))).filter
      Effect.isSpeak = [] := by
  obtain ⟨host, key⟩ := hostKey
  have hmsg : pyStrip (dictGetText res) = "" := by
    rw [dictGetText, htext]
    rfl
  constructor <;>
    simp [sendChat, hhk, hinput, hmsg, Effect.isSpeak, List.filter]

/-- Witness for C3 at concrete field texts and response. -/
theorem sendChat_empty_reply_witness :
    Effect.log "Assistant: (empty)" ∈
      sendChat "h" "k" {} "hi" (.ok (some [("text", "")])) ∧
    (sendChat "h" "k" {} "hi" (.ok (some [("text", "")]))).filter
      Effect.isSpeak = [] :=
  sendChat_empty_reply "h" "k" {} "hi" [("text", "")] ("h", "k") rfl
    (by decide) rfl

/-- C6: with an empty explicit prompt the prompt form field sent to
POST /vision is the default prompt chosen from the mode string; for
mode "navigate" and target "the door" it is the default navigate prompt
and contains the substring "the door". -/
theorem vision_default_prompt (hostEdit keyEdit : String) (st : Settings)
    (hostKey : String × String)
    (hhk : hk hostEdit keyEdit st = .ok hostKey) :
    (∀ resp : PostResult, ∃ req,
      Effect.postVision req ∈
        visionWithFrame hostEdit keyEdit st "navigate" "the door" "" resp ∧
      req.prompt = "How to navigate toward the door in the scene?" ∧
      ∃ a b, req.prompt = a ++ "the door" ++ b) ∧
    (∀ mode target : String, ∀ resp : PostResult, ∃ req,
      Effect.postVision req ∈
        visionWithFrame hostEdit keyEdit st mode target "" resp ∧
      req.prompt = defaultPrompt mode target) := by
  obtain ⟨host, key⟩ := hostKey
  constructor
  · intro resp
    refine ⟨_, mem_of_head? (visionWithFrame_head _ _ _ resp hhk), ?_, ?_⟩
    · rfl
    · exact ⟨"How to navigate toward ", " in the scene?", rfl⟩
  · intro mode target resp
    refine ⟨_, mem_of_head? (visionWithFrame_head _ _ _ resp hhk), ?_⟩
    show pyOr (pyOr "" (defaultPrompt mode target)) "" = _
    rw [show pyOr "" (defaultPrompt mode target) = defaultPrompt mode target
          from rfl,
        pyOr_right_empty]

/-- Witness for C6 at concrete field texts. -/
theorem vision_default_prompt_witness :
    (∀ resp : PostResult, ∃ req,
      Effect.postVision req ∈
        visionWithFrame "h" "k" {} "navigate" "the door" "" resp ∧
      req.prompt = "How to navigate toward the door in the scene?" ∧
      ∃ a b, req.prompt = a ++ "the door" ++ b) ∧
    (∀ mode target : String, ∀ resp : PostResult, ∃ req,
      Effect.postVision req ∈
        visionWithFrame "h" "k" {} mode target "" resp ∧
      req.prompt = defaultPrompt mode target) :=
  vision_default_prompt "h" "k" {} ("h", "k") rfl

/-- C7: an HTTPError outcome of POST /vision (for example a 401)
appends exactly one log line; that line carries the status (inside the
str(e) text of the raised HTTPError) and the response body, and no
speech synthesis is invoked.  The handler catches the error, so it
never propagates (the model function is total and its effects for this
outcome are exactly one request plus one log line). -/
theorem vision_http_error (hostEdit keyEdit : String) (st : Settings)
    (mode target prompt : String) (hostKey : String × String)
    (status : Nat) (reason url body : String)
    (hhk : hk hostEdit keyEdit st = .ok hostKey) :
    ((visionWithFrame hostEdit keyEdit st mode target prompt
        (.httpError status reason url body)).filter Effect.isLog =
      [Effect.log ("Vision error: " ++ httpErrorStr status reason url ++
        " | Body: " ++ body)]) ∧
    (∃ a b, "Vision error: " ++ httpErrorStr status reason url ++
        " | Body: " ++ body = a ++ toString status ++ b) ∧
    (∃ a, "Vision error: " ++ httpErrorStr status reason url ++
        " | Body: " ++ body = a ++ body) ∧
    (visionWithFrame hostEdit keyEdit st mode target prompt
      (.httpError status reason url body)).filter Effect.isSpeak = [] := by
  obtain ⟨host, key⟩ := hostKey
  refine ⟨?_, ?_, ?_, ?_⟩
  · simp [visionWithFrame, hhk, Effect.isLog, List.filter]
  · refine ⟨"Vision error: ",
      (if status < 500 then " Client Error: " else " Server Error: ") ++
        reason ++ " for url: " ++ url ++ " | Body: " ++ body, ?_⟩
    rw [httpErrorStr]
    simp only [String.append_assoc]
  · exact ⟨"Vision error: " ++ httpErrorStr status reason url ++
      " | Body: ", rfl⟩
  · simp [visionWithFrame, hhk, Effect.isSpeak, List.filter]

/-- Witness for C7 at a concrete 401 response. -/
theorem vision_http_error_witness :
    ((visionWithFrame "h" "k" {} "scene" "" ""
        (.httpError 401 "Unauthorized" "h/vision" "denied")).filter
          Effect.isLog =
      [Effect.log ("Vision error: " ++ httpErrorStr 401 "Unauthorized"
        "h/vision" ++ " | Body: " ++ "denied")]) ∧
    (∃ a b, "Vision error: " ++ httpErrorStr 401 "Unauthorized" "h/vision" ++
        " | Body: " ++ "denied" = a ++ toString 401 ++ b) ∧
    (∃ a, "Vision error: " ++ httpErrorStr 401 "Unauthorized" "h/vision" ++
        " | Body: " ++ "denied" = a ++ "denied") ∧
    (visionWithFrame "h" "k" {} "scene" "" ""
      (.httpError 401 "Unauthorized" "h/vision" "denied")).filter
        Effect.isSpeak = [] :=
  vision_http_error "h" "k" {} "scene" "" "" ("h", "k") 401 "Unauthorized"
    "h/vision" "denied" rfl

/-- C10: host/key resolution takes the stripped edit-field texts,
falling back to the stripped saved settings values; _hk raises exactly
when either resolved value is empty, and in that case each of the
health, chat and vision actions appends the single prefixed error line
and performs no HTTP request (its effect list is just that log line). -/
theorem hk_resolution (hostEdit keyEdit : String) (st : Settings) :
    ((if pyStrip hostEdit = "" then pyStrip st.host else pyStrip hostEdit)
        ≠ "" ∧
     (if pyStrip keyEdit = "" then pyStrip st.api_key else pyStrip keyEdit)
        ≠ "" →
      hk hostEdit keyEdit st = .ok
        (if pyStrip hostEdit = "" then pyStrip st.host else pyStrip hostEdit,
         if pyStrip keyEdit = "" then pyStrip st.api_key
           else pyStrip keyEdit)) ∧
    ((if pyStrip hostEdit = "" then pyStrip st.host else pyStrip hostEdit)
        = "" ∨
     (if pyStrip keyEdit = "" then pyStrip st.api_key else pyStrip keyEdit)
        = "" →
      hk hostEdit keyEdit st = .error "Host or API key missing." ∧
      (∀ resp, testHealth hostEdit keyEdit st resp =
        [Effect.log ("Health check error: " ++ "Host or API key missing.")]) ∧
      (∀ input resp, sendChat hostEdit keyEdit st input resp =
        [Effect.log ("Chat error: " ++ "Host or API key missing.")]) ∧
      (∀ mode target prompt resp,
        visionWithFrame hostEdit keyEdit st mode target prompt resp =
          [Effect.log ("Vision error: " ++ "Host or API key missing.")])) := by
  have heq : hk hostEdit keyEdit st =
      if pyOr (pyStrip hostEdit) (pyStrip st.host) = "" ∨
         pyOr (pyStrip keyEdit) (pyStrip st.api_key) = "" then
        .error "Host or API key missing."
      else .ok (pyOr (pyStrip hostEdit) (pyStrip st.host),
                pyOr (pyStrip keyEdit) (pyStrip st.api_key)) := rfl
  have hpyor : ∀ a b : String, pyOr a b = if a = "" then b else a :=
    fun a b => rfl
  constructor
  · rintro ⟨hh, hkk⟩
    rw [heq, if_neg, hpyor, hpyor]
    rw [hpyor, hpyor]
    intro hor
    cases hor with
    | inl h => exact hh h
    | inr h => exact hkk h
  · intro hor
    have herr : hk hostEdit keyEdit st = .error "Host or API key missing." := by
      rw [heq, if_pos]
      rw [hpyor, hpyor]
      exact hor
    refine ⟨herr, ?_, ?_, ?_⟩
    · intro resp
      simp [testHealth, herr]
    · intro input resp
      simp [sendChat, herr]
    · intro mode target prompt resp
      simp [visionWithFrame, herr]

/-- Witness for C10 with everything empty. -/
theorem hk_resolution_witness :
    hk "" "" {} = Except.error "Host or API key missing." ∧
    testHealth "" "" {} (.err "down") =
      [Effect.log ("Health check error: " ++ "Host or API key missing.")] ∧
    sendChat "" "" {} "hi" (.ok none) =
      [Effect.log ("Chat error: " ++ "Host or API key missing.")] ∧
    visionWithFrame "" "" {} "scene" "" "" (.ok none) =
      [Effect.log ("Vision error: " ++ "Host or API key missing.")] := by
  obtain ⟨-, h2⟩ := hk_resolution "" "" {}
  obtain ⟨ha, hb, hc, hd⟩ := h2 (Or.inl rfl)
  exact ⟨ha, hb _, hc _ _, hd _ _ _ _⟩

end TalkBot
